import Mathlib

/-!
Verification of the Loop Yield Synthesis & Risk Scoring Engine of the
stablecoin-yields-web repository, as a shallow embedding in Lean 4.

Rates, leverage levels and scores are Python floats in the source; they are
modelled as rationals (ℚ).  Wall-clock dependent quantities (the
`(maturity_date - now).days` value inside the risk scorer) are passed as an
explicit parameter of the embedded function.
-/

/-- Strategy type base risk table (`RiskAssessor.STRATEGY_RISK`,
src/utils/risk.py lines 72-82). -/
def STRATEGY_RISK : List (String × ℚ) :=
  [("simple_lend", 1), ("lend", 1), ("loop", 3), ("pendle_fixed", 2),
   ("pendle_loop", 4), ("reward", 2), ("yield_bearing", 2), ("vault", 2),
   ("fixed", 2)]

/-- Protocol maturity table (`RiskAssessor.PROTOCOL_MATURITY`,
src/utils/risk.py lines 11-40), in Python dict insertion order. -/
def PROTOCOL_MATURITY : List (String × ℚ) :=
  [("aave", 1), ("morpho", 2), ("euler", 2), ("pendle", 2), ("compound", 1),
   ("silo", 3), ("merkl", 2), ("beefy", 2), ("yearn", 1), ("midas", 3),
   ("spectra", 3), ("gearbox", 2), ("upshift", 3), ("ipor", 3),
   ("townsquare", 3), ("curvance", 3), ("accountable", 3), ("stakedao", 2),
   ("convex", 2), ("hyperion", 3), ("yo", 3), ("yieldfi", 3), ("ploutos", 3),
   ("kamino", 2), ("jupiter", 2), ("lagoon", 3), ("nest credit", 3)]

/-- Chain risk table (`RiskAssessor.CHAIN_RISK`, src/utils/risk.py
lines 43-69). -/
def CHAIN_RISK : List (String × ℚ) :=
  [("ethereum", 1), ("arbitrum", 1), ("base", 1), ("optimism", 1),
   ("polygon", 1), ("avalanche", 2), ("bsc", 2), ("solana", 2), ("sei", 3),
   ("monad", 4), ("plasma", 4), ("hyperevm", 4), ("etherlink", 4),
   ("plume", 4), ("katana", 4), ("tac", 4), ("unichain", 3), ("hemi", 4),
   ("ink", 4), ("world chain", 3), ("linea", 3), ("mantle", 3),
   ("sonieum", 4), ("rootstock", 3), ("aptos", 4)]

/-- ASCII lower-casing of one character (the protocol/chain/strategy names
fed to `str.lower()` in the source are ASCII). -/
def lowerChar (c : Char) : Char :=
  if 'A' ≤ c && c ≤ 'Z' then Char.ofNat (c.toNat + 32) else c

/-- ASCII upper-casing of one character (symbols fed to `str.upper()` in the
source are ASCII). -/
def upperChar (c : Char) : Char :=
  if 'a' ≤ c && c ≤ 'z' then Char.ofNat (c.toNat - 32) else c

/-- Python `s.lower()` for ASCII strings. -/
def strLower (s : String) : String := String.mk (s.toList.map lowerChar)

/-- Python `s.upper()` for ASCII strings. -/
def strUpper (s : String) : String := String.mk (s.toList.map upperChar)

/-- Python `dict.get(key, default)`: exact-key lookup with a default. -/
def dictGet (table : List (String × ℚ)) (key : String) (dflt : ℚ) : ℚ :=
  match table with
  | [] => dflt
  | (k, v) :: rest => if k = key then v else dictGet rest key dflt

/-- Prefix test on character lists. -/
def listPre : List Char → List Char → Bool
  | [], _ => true
  | _ :: _, [] => false
  | a :: as, b :: bs => a == b && listPre as bs

/-- Substring containment on character lists (Python `needle in haystack`). -/
def listSub (needle : List Char) (haystack : List Char) : Bool :=
  match haystack with
  | [] => needle.isEmpty
  | _ :: t => listPre needle haystack || listSub needle t

/-- Python `needle in haystack` for strings. -/
def strIn (needle haystack : String) : Bool :=
  listSub needle.toList haystack.toList

/-- Protocol-maturity points (src/utils/risk.py lines 122-129): the first
table entry whose key is a substring of the lowercased protocol name
contributes `maturity * 5`; if no entry matches, a flat 15 is added. -/
def protocolLoop (table : List (String × ℚ)) (protocol_lower : String) : ℚ :=
  match table with
  | [] => 15
  | (proto, maturity) :: rest =>
      if strIn proto protocol_lower then maturity * 5
      else protocolLoop rest protocol_lower

/-- Whether some entry of `PROTOCOL_MATURITY` matches the protocol name
(the `for ... break / else` loop of src/utils/risk.py lines 124-129 takes
the known-protocol branch). -/
def isKnownProtocol (protocol : String) : Bool :=
  PROTOCOL_MATURITY.any (fun e => strIn e.1 (strLower protocol))

/-- The protocol-maturity contribution to the risk score. -/
def protocolPoints (protocol : String) : ℚ :=
  protocolLoop PROTOCOL_MATURITY (strLower protocol)

/-- Chain-risk contribution (src/utils/risk.py lines 131-134):
`CHAIN_RISK.get(chain.lower(), 4) * 5`. -/
def chainPoints (chain : String) : ℚ :=
  dictGet CHAIN_RISK (strLower chain) 4 * 5

/-- Leverage contribution (src/utils/risk.py lines 113-120). -/
def leveragePoints (leverage : ℚ) : ℚ :=
  if leverage > 1 then
    (leverage - 1) * 15
      + (if leverage ≥ 5 then 20 else 0)
      + (if leverage ≥ 7 then 20 else 0)
      + (if leverage ≥ 10 then 30 else 0)
  else 0

/-- Time-to-maturity contribution (src/utils/risk.py lines 136-150).
`days_to_maturity` is `(maturity_date - now).days` in the source; it is
`none` exactly when `maturity_date` is `None`. -/
def maturityPoints (days_to_maturity : Option Int) : ℚ :=
  match days_to_maturity with
  | none => 0
  | some d => if d < 7 then 30 else if d < 30 then 15 else if d < 90 then 5 else 0

/-- Anomalous-yield contribution (src/utils/risk.py lines 152-158). -/
def apyPoints (apy : ℚ) : ℚ :=
  if apy > 100 then 20 else if apy > 50 then 10 else if apy > 30 then 5 else 0

/-- The additive risk score before thresholding (src/utils/risk.py
lines 107-158). -/
def riskScoreRaw (strategy_type : String) (leverage : ℚ) (protocol : String)
    (chain : String) (days_to_maturity : Option Int) (apy : ℚ) : ℚ :=
  dictGet STRATEGY_RISK (strLower strategy_type) 2 * 10
    + leveragePoints leverage
    + protocolPoints protocol
    + chainPoints chain
    + maturityPoints days_to_maturity
    + apyPoints apy

/-- Score-to-category thresholds (src/utils/risk.py lines 160-168). -/
def riskCategory (score : ℚ) : String :=
  if score < 25 then "Low"
  else if score < 50 then "Medium"
  else if score < 75 then "High"
  else "Very High"

/-- Embeds `RiskAssessor.calculate_risk_score` (src/utils/risk.py lines 84-168),
with the wall-clock-dependent `(maturity_date - now).days` passed as the
explicit `days_to_maturity` parameter. -/
def calculate_risk_score (strategy_type : String) (leverage : ℚ)
    (protocol : String) (chain : String) (days_to_maturity : Option Int)
    (apy : ℚ) : String :=
  riskCategory (riskScoreRaw strategy_type leverage protocol chain
    days_to_maturity apy)

/-- Embeds `RiskAssessor.get_leverage_risk_warning` (src/utils/risk.py
lines 170-190). -/
def get_leverage_risk_warning (leverage : ℚ) : Option String :=
  if leverage ≥ 10 then
    some "EXTREME liquidation risk - small price moves can wipe position"
  else if leverage ≥ 7 then
    some "Very high liquidation risk - requires active monitoring"
  else if leverage ≥ 5 then
    some "High liquidation risk - monitor closely"
  else if leverage ≥ 3 then
    some "Moderate liquidation risk"
  else if leverage > 1 then
    some "Some liquidation risk"
  else none

/-- Rank of a risk category in the order Low < Medium < High < Very High. -/
def riskRank (category : String) : Nat :=
  if category = "Low" then 0
  else if category = "Medium" then 1
  else if category = "High" then 2
  else 3

/-- Leverage tiers for loop strategies (`LEVERAGE_LEVELS`,
src/config.py line 59). -/
def LEVERAGE_LEVELS : List ℚ := [1.0, 2.0, 3.0, 5.0]

/-- Theoretical maximum loop leverage from the parsed LLTV
(src/scrapers/morpho_loop.py line 419):
`1 / (1 - lltv) if lltv < 1 else 1`. -/
def theoretical_max_leverage (lltv : ℚ) : ℚ :=
  if lltv < 1 then 1 / (1 - lltv) else 1

/-- Safe maximum leverage (src/scrapers/morpho_loop.py lines 423-425):
60% of the theoretical maximum, capped at 5. -/
def safe_max_leverage (lltv : ℚ) : ℚ :=
  min (theoretical_max_leverage lltv * 0.6) 5.0

/-- Net loop APY (src/scrapers/morpho_loop.py line 438 and
src/scrapers/pendle_loop.py line 397):
`collateral_yield * leverage - borrow_rate * (leverage - 1)`.
All rates are percentages. -/
def net_apy (collateral_yield borrow_rate leverage : ℚ) : ℚ :=
  collateral_yield * leverage - borrow_rate * (leverage - 1)

/-- One iteration of the Morpho loop tier loop
(src/scrapers/morpho_loop.py lines 431-441): `true` iff the tier is emitted.
The three `continue` guards are kept in source order. -/
def morphoTierEmit (collateral_yield borrow_apy lltv leverage : ℚ) : Bool :=
  if leverage > safe_max_leverage lltv then false
  else if leverage = 1.0 then false
  else if net_apy collateral_yield borrow_apy leverage ≤ 0 then false
  else true

/-- Leverage tiers emitted by `MorphoLoopScraper._calculate_loop_opportunities`
for one market that passed the symbol/TVL/borrow-rate/LLTV/yield filters
(src/scrapers/morpho_loop.py lines 431-476): one opportunity per tier. -/
def morphoLoopTiers (collateral_yield borrow_apy lltv : ℚ) : List ℚ :=
  LEVERAGE_LEVELS.filter (morphoTierEmit collateral_yield borrow_apy lltv)

/-- Market-level filters of `MorphoLoopScraper._calculate_loop_opportunities`
(src/scrapers/morpho_loop.py lines 398-425) for a market that already passed
the collateral/loan symbol checks: minimum TVL 10000 (`MIN_TVL_USD`),
borrow APY in (0, 50] (`MAX_BORROW_APY`), parsed LLTV > 0, collateral yield
> 0; then the tier loop runs. -/
def morphoMarketTiers (tvl borrow_apy lltv collateral_yield : ℚ) : List ℚ :=
  if tvl < 10000 then []
  else if borrow_apy > 50 ∨ borrow_apy ≤ 0 then []
  else if lltv ≤ 0 then []
  else if collateral_yield ≤ 0 then []
  else morphoLoopTiers collateral_yield borrow_apy lltv

/-- One iteration of the Pendle loop tier loop
(src/scrapers/pendle_loop.py lines 380-400): `true` iff the tier is emitted.
Tier 1 is skipped, a non-positive LLTV falls back to 0.85, the tier is
skipped when it exceeds 90% of the theoretical maximum leverage (there is no
0.6 margin and no 5.0 hard cap here), and non-positive net APY is skipped. -/
def pendleTierEmit (pt_yield borrow_rate lltv leverage : ℚ) : Bool :=
  if leverage = 1.0 then false
  else
    let lltv2 := if lltv ≤ 0 then 0.85 else lltv
    let max_leverage := if lltv2 < 1 then 1 / (1 - lltv2) else 1
    if leverage > max_leverage * 0.9 then false
    else if net_apy pt_yield borrow_rate leverage ≤ 0 then false
    else true

/-- Leverage tiers emitted by
`PendleLoopScraper._calculate_morpho_loop_yields` for one viable borrow
market (src/scrapers/pendle_loop.py lines 379-400). -/
def pendleLoopTiers (pt_yield borrow_rate lltv : ℚ) : List ℚ :=
  LEVERAGE_LEVELS.filter (pendleTierEmit pt_yield borrow_rate lltv)

/-- Python `s.startswith(pre)`. -/
def startsWith (pre s : String) : Bool := listPre pre.toList s.toList

/-- Separator removal `s.replace("-", "").replace("_", "")`
(src/scrapers/pendle_loop.py lines 296-299). -/
def removeSeps (s : String) : String :=
  String.mk (s.toList.filter (fun c => !(c == '-' || c == '_')))

/-- Embeds `PendleLoopScraper._underlyings_match`
(src/scrapers/pendle_loop.py lines 272-316): exact match, then equality
after separator removal, then the staked-marker rule (a leading `S` on
exactly one side is never a match), then `False`. -/
def underlyings_match (morpho_underlying pendle_underlying : String) : Bool :=
  let m := strUpper morpho_underlying
  let p := strUpper pendle_underlying
  if m = p then true
  else if removeSeps m = removeSeps p then true
  else if startsWith "S" m && !startsWith "S" p then false
  else if startsWith "S" p && !startsWith "S" m then false
  else false

/-- Embeds the identity comparison of the Streamlit
`PendleLoopScraper._underlyings_match` (src/streamlit_app.py
lines 1095-1118) on the already-extracted identities: the caller passes
`morpho_under = _extract_underlying(pt_collateral)` and
`pendle_under = pendle_underlying.upper()` with separators removed
(lines 1092-1093).  Direct match, then the staked-marker rule, then
normalized comparison, then the bounded fuzzy fallback (substring
containment with length ratio at least 0.7). -/
def st_underlyings_match (morpho_under pendle_under : String) : Bool :=
  if morpho_under = pendle_under then true
  else if startsWith "S" morpho_under && !startsWith "S" pendle_under then
    false
  else if startsWith "S" pendle_under && !startsWith "S" morpho_under then
    false
  else if removeSeps (strUpper morpho_under) = removeSeps (strUpper pendle_under)
      then true
  else if morpho_under.length > 0 && pendle_under.length > 0
      && (min morpho_under.length pendle_under.length : ℚ)
            / (max morpho_under.length pendle_under.length) ≥ 0.7
      && (strIn morpho_under pendle_under || strIn pendle_under morpho_under)
      then true
  else false

/-- Proleptic-Gregorian date (the date part of a Python `datetime`). -/
structure PyDate where
  year : Nat
  month : Nat
  day : Nat
deriving DecidableEq, Repr

/-- Days in a month of the Gregorian calendar (Python `calendar`/`datetime`
semantics). -/
def daysInMonth (year month : Nat) : Nat :=
  if month = 2 then
    if year % 4 = 0 && (year % 100 != 0 || year % 400 = 0) then 29 else 28
  else if month = 4 || month = 6 || month = 9 || month = 11 then 30
  else 31

/-- Day count before the first day of a year (proleptic Gregorian),
matching Python `date.toordinal` up to the epoch offset. -/
def daysBeforeYear (year : Nat) : Nat :=
  365 * (year - 1) + (year - 1) / 4 - (year - 1) / 100 + (year - 1) / 400

/-- Day count before the first day of a month within a year. -/
def daysBeforeMonth (year month : Nat) : Nat :=
  [0, 0, 31, 59, 90, 120, 151, 181, 212, 243, 273, 304, 334].getD month 0
    + (if 2 < month && daysInMonth year 2 = 29 then 1 else 0)

/-- Python `date.toordinal`. -/
def dateOrdinal (d : PyDate) : Int :=
  (daysBeforeYear d.year + daysBeforeMonth d.year d.month + d.day : Nat)

/-- Embeds `datetime(year, month, day)` construction: `some` on a valid
date, `none` for the `ValueError` the source catches (invalid day/month
combination or a year outside 1..9999). -/
def mkDatetime (year month day : Nat) : Option PyDate :=
  if 1 ≤ year ∧ year ≤ 9999 ∧ 1 ≤ month ∧ month ≤ 12
      ∧ 1 ≤ day ∧ day ≤ daysInMonth year month then
    some ⟨year, month, day⟩
  else none

/-- ASCII digit test (regex `\d`). -/
def isDigitC (c : Char) : Bool := '0' ≤ c && c ≤ '9'

/-- ASCII upper-case letter test (regex `[A-Z]`). -/
def isUpperC (c : Char) : Bool := 'A' ≤ c && c ≤ 'Z'

/-- Numeric value of an ASCII digit character. -/
def digitVal (c : Char) : Nat := c.toNat - 48

/-- Matches the `([A-Z]{3})(\d{4})` tail of the maturity regex at the head
of the character list, returning the month letters and the year. -/
def tryMonthYear (cs : List Char) : Option (String × Nat) :=
  match cs with
  | m1 :: m2 :: m3 :: y1 :: y2 :: y3 :: y4 :: _ =>
      if isUpperC m1 && isUpperC m2 && isUpperC m3 && isDigitC y1
          && isDigitC y2 && isDigitC y3 && isDigitC y4 then
        some (String.mk [m1, m2, m3],
          digitVal y1 * 1000 + digitVal y2 * 100 + digitVal y3 * 10
            + digitVal y4)
      else none
  | _ => none

/-- Matches the regex `(\d{1,2})([A-Z]{3})(\d{4})` anchored at the head of
the character list, with the greedy two-digit day tried first and the
one-digit day as the backtracking alternative, as Python `re` does. -/
def matchDMYat (cs : List Char) : Option (Nat × String × Nat) :=
  match cs with
  | [] => none
  | d1 :: rest1 =>
      if isDigitC d1 then
        match rest1 with
        | [] => none
        | d2 :: rest2 =>
            if isDigitC d2 then
              match tryMonthYear rest2 with
              | some (m, y) => some (digitVal d1 * 10 + digitVal d2, m, y)
              | none =>
                  match tryMonthYear rest1 with
                  | some (m, y) => some (digitVal d1, m, y)
                  | none => none
            else
              match tryMonthYear rest1 with
              | some (m, y) => some (digitVal d1, m, y)
              | none => none
      else none

/-- Leftmost match of the maturity regex (Python `re.search`): positions
are tried left to right. -/
def searchDMY : List Char → Option (Nat × String × Nat)
  | [] => none
  | c :: rest =>
      match matchDMYat (c :: rest) with
      | some r => some r
      | none => searchDMY rest

/-- Month-abbreviation table of `_extract_maturity_from_symbol`
(src/scrapers/pendle_loop.py lines 338-342). -/
def month_map : List (String × Nat) :=
  [("JAN", 1), ("FEB", 2), ("MAR", 3), ("APR", 4), ("MAY", 5), ("JUN", 6),
   ("JUL", 7), ("AUG", 8), ("SEP", 9), ("OCT", 10), ("NOV", 11), ("DEC", 12)]

/-- Exact lookup in the month table (`month_map.get(month_str)`). -/
def monthNum (s : String) : Option Nat :=
  match month_map.find? (fun e => e.1 = s) with
  | some e => some e.2
  | none => none

/-- Embeds `PendleLoopScraper._extract_maturity_from_symbol`
(src/scrapers/pendle_loop.py lines 318-351, duplicated at
src/streamlit_app.py lines 1071-1088): search the uppercased symbol for
`(\d{1,2})([A-Z]{3})(\d{4})`, map the month abbreviation, and build the
date, returning `none` when the pattern is absent, the letters are not a
month, or the date is invalid (the caught `ValueError`). -/
def extract_maturity_from_symbol (symbol : String) : Option PyDate :=
  match searchDMY (strUpper symbol).toList with
  | none => none
  | some (day, month_str, year) =>
      match monthNum month_str with
      | none => none
      | some month => mkDatetime year month day

/-- Embeds `PendleLoopScraper._maturities_match` (src/streamlit_app.py
lines 1120-1130): both maturities are required; a missing Pendle maturity
or a Morpho collateral symbol without a parsable date is a non-match; else
the dates must lie within 7 days of each other.  Dates are compared at
day granularity (both sides are midnight datetimes in the source path
that builds them from symbols). -/
def maturities_match (morpho_collateral : String)
    (pendle_maturity : Option PyDate) : Bool :=
  match pendle_maturity with
  | none => false
  | some pd =>
      match extract_maturity_from_symbol morpho_collateral with
      | none => false
      | some md => (dateOrdinal md - dateOrdinal pd).natAbs ≤ 7

/-- Embeds the maturity gate of `PendleLoopScraper._find_best_borrow_markets`
(src/scrapers/pendle_loop.py lines 193-205): a market is skipped when the
Pendle side has no maturity, or the Morpho collateral symbol yields none,
or the dates differ by more than 3 days. -/
def pendle_maturity_gate (morpho_collateral : String)
    (pendle_maturity : Option PyDate) : Bool :=
  match pendle_maturity with
  | none => false
  | some pd =>
      match extract_maturity_from_symbol morpho_collateral with
      | none => false
      | some md => (dateOrdinal md - dateOrdinal pd).natAbs ≤ 3

/-- Naive Python `datetime` without microseconds (the precision used by
the maturity dates this code builds from symbols and ISO strings). -/
structure PyDateTime where
  year : Nat
  month : Nat
  day : Nat
  hour : Nat
  minute : Nat
  second : Nat
deriving DecidableEq, Repr

/-- Field ranges enforced by the Python `datetime` constructor. -/
def ValidDT (t : PyDateTime) : Prop :=
  1 ≤ t.year ∧ t.year ≤ 9999 ∧ 1 ≤ t.month ∧ t.month ≤ 12
    ∧ 1 ≤ t.day ∧ t.day ≤ daysInMonth t.year t.month
    ∧ t.hour ≤ 23 ∧ t.minute ≤ 59 ∧ t.second ≤ 59

instance (t : PyDateTime) : Decidable (ValidDT t) := by
  unfold ValidDT; infer_instance

/-- ASCII digit character for `k % 10`. -/
def digitChar (k : Nat) : Char := Char.ofNat (48 + k % 10)

/-- Two-digit zero-padded decimal (`f"{n:02d}"` for `n < 100`). -/
def pad2 (n : Nat) : List Char := [digitChar (n / 10), digitChar n]

/-- Four-digit zero-padded decimal (`f"{n:04d}"` for `n < 10000`). -/
def pad4 (n : Nat) : List Char :=
  [digitChar (n / 1000), digitChar (n / 100), digitChar (n / 10), digitChar n]

/-- Python `datetime.isoformat()` for a naive datetime with zero
microseconds: `YYYY-MM-DDTHH:MM:SS`. -/
def isoformat (t : PyDateTime) : String :=
  String.mk (pad4 t.year
    ++ '-' :: pad2 t.month ++ '-' :: pad2 t.day
    ++ 'T' :: pad2 t.hour ++ ':' :: pad2 t.minute ++ ':' :: pad2 t.second)

/-- Embeds the `datetime(...)` range checks for a full timestamp: `some` on
a valid datetime, `none` for a `ValueError`. -/
def mkFullDatetime (y mo d hh mi ss : Nat) : Option PyDateTime :=
  if ValidDT ⟨y, mo, d, hh, mi, ss⟩ then some ⟨y, mo, d, hh, mi, ss⟩ else none

/-- Python `datetime.fromisoformat`, restricted to the
`YYYY-MM-DDTHH:MM:SS` shape that `isoformat` prints for naive datetimes
without microseconds (other accepted spellings of the standard never arise
in the round trip below); malformed input or out-of-range fields give
`none`, the `ValueError` of the source. -/
def fromisoformat (s : String) : Option PyDateTime :=
  match s.toList with
  | [y1, y2, y3, y4, a1, o1, o2, a2, d1, d2, a3, h1, h2, a4, n1, n2, a5,
     e1, e2] =>
      if a1 = '-' ∧ a2 = '-' ∧ a3 = 'T' ∧ a4 = ':' ∧ a5 = ':'
          ∧ isDigitC y1 ∧ isDigitC y2 ∧ isDigitC y3 ∧ isDigitC y4
          ∧ isDigitC o1 ∧ isDigitC o2 ∧ isDigitC d1 ∧ isDigitC d2
          ∧ isDigitC h1 ∧ isDigitC h2 ∧ isDigitC n1 ∧ isDigitC n2
          ∧ isDigitC e1 ∧ isDigitC e2 then
        mkFullDatetime
          (digitVal y1 * 1000 + digitVal y2 * 100 + digitVal y3 * 10
            + digitVal y4)
          (digitVal o1 * 10 + digitVal o2)
          (digitVal d1 * 10 + digitVal d2)
          (digitVal h1 * 10 + digitVal h2)
          (digitVal n1 * 10 + digitVal n2)
          (digitVal e1 * 10 + digitVal e2)
      else none
  | _ => none

/-- Embeds the `YieldOpportunity` dataclass (src/models/opportunity.py
lines 8-26).  Floats are rationals; `additional_info` is a free-form
payload that `to_dict`/`from_dict` pass through unchanged, modelled as a
key-value list. -/
structure YieldOpportunity where
  category : String
  protocol : String
  chain : String
  stablecoin : String
  apy : ℚ
  tvl : Option ℚ
  risk_score : String
  leverage : ℚ
  source_url : String
  maturity_date : Option PyDateTime
  borrow_apy : Option ℚ
  supply_apy : Option ℚ
  reward_token : Option String
  opportunity_type : String
  additional_info : List (String × String)
deriving DecidableEq, Repr

/-- The serialization dictionary of `YieldOpportunity.to_dict`/`from_dict`
(src/models/opportunity.py lines 73-116).  Each field is wrapped in an
outer `Option` marking whether the key is present at all (`from_dict` uses
`data[...]`, a `KeyError` on a missing required key, and `data.get(...)`
with defaults for the rest); keys whose value may itself be `None` carry
an inner `Option`. -/
structure OppDict where
  category : Option String
  protocol : Option String
  chain : Option String
  stablecoin : Option String
  apy : Option ℚ
  tvl : Option (Option ℚ)
  risk_score : Option String
  leverage : Option ℚ
  source_url : Option String
  maturity_date : Option (Option String)
  borrow_apy : Option (Option ℚ)
  supply_apy : Option (Option ℚ)
  reward_token : Option (Option String)
  opportunity_type : Option String
  additional_info : Option (List (String × String))
deriving Repr

/-- Embeds `YieldOpportunity.to_dict` (src/models/opportunity.py
lines 73-91): every key is present; `maturity_date` is serialized with
`isoformat()` when set, else `None`. -/
def to_dict (o : YieldOpportunity) : OppDict where
  category := some o.category
  protocol := some o.protocol
  chain := some o.chain
  stablecoin := some o.stablecoin
  apy := some o.apy
  tvl := some o.tvl
  risk_score := some o.risk_score
  leverage := some o.leverage
  source_url := some o.source_url
  maturity_date := some (o.maturity_date.map isoformat)
  borrow_apy := some o.borrow_apy
  supply_apy := some o.supply_apy
  reward_token := some o.reward_token
  opportunity_type := some o.opportunity_type
  additional_info := some o.additional_info

/-- Embeds `YieldOpportunity.from_dict` (src/models/opportunity.py
lines 93-116).  A string `maturity_date` value is parsed with
`fromisoformat` (an unparsable string raises `ValueError` in the source,
modelled as `none`; the source would keep an empty string unparsed, a
value the typed record cannot hold and `to_dict` never produces, also
modelled as `none`).  Missing required keys (`data[...]`) fail; the
remaining keys fall back to the `data.get` defaults. -/
def from_dict (d : OppDict) : Option YieldOpportunity := do
  let maturity : Option PyDateTime ←
    match d.maturity_date.getD none with
    | none => some none
    | some s =>
        if s = "" then none
        else match fromisoformat s with
          | some t => some (some t)
          | none => none
  let category ← d.category
  let protocol ← d.protocol
  let chain ← d.chain
  let stablecoin ← d.stablecoin
  let apy ← d.apy
  pure
    { category := category
      protocol := protocol
      chain := chain
      stablecoin := stablecoin
      apy := apy
      tvl := d.tvl.getD none
      risk_score := d.risk_score.getD "Medium"
      leverage := d.leverage.getD 1.0
      source_url := d.source_url.getD ""
      maturity_date := maturity
      borrow_apy := d.borrow_apy.getD none
      supply_apy := d.supply_apy.getD none
      reward_token := d.reward_token.getD none
      opportunity_type := d.opportunity_type.getD ""
      additional_info := d.additional_info.getD [] }

lemma startsWith_neq_of_marker {a b : String}
    (h : startsWith "S" a ≠ startsWith "S" b) : a ≠ b := by
  intro hab; exact h (by rw [hab])

/-- C4: for every date and tolerance window, maturity compatibility with a
missing maturity is `false`: a collateral source with no expected maturity,
and a candidate market whose symbol yields no parsable maturity, are both
non-matches, never wildcard matches — in the Streamlit matcher
(tolerance 7) and in the Pendle borrow-market gate (tolerance 3). -/
theorem C4_missing_maturity_non_match :
    (∀ c : String, maturities_match c none = false)
    ∧ (∀ c : String, pendle_maturity_gate c none = false)
    ∧ (∀ (c : String) (d : PyDate), extract_maturity_from_symbol c = none →
        maturities_match c (some d) = false)
    ∧ (∀ (c : String) (d : PyDate), extract_maturity_from_symbol c = none →
        pendle_maturity_gate c (some d) = false) := by
  refine ⟨fun c => rfl, fun c => rfl, ?_, ?_⟩
  · intro c d h
    simp [maturities_match, h]
  · intro c d h
    simp [pendle_maturity_gate, h]

theorem C4_missing_maturity_non_match_witness :
    extract_maturity_from_symbol "USDC" = none
    ∧ maturities_match "USDC" (some ⟨2026, 6, 25⟩) = false
    ∧ pendle_maturity_gate "USDC" (some ⟨2026, 6, 25⟩) = false :=
  ⟨by decide,
   C4_missing_maturity_non_match.2.2.1 "USDC" ⟨2026, 6, 25⟩ (by decide),
   C4_missing_maturity_non_match.2.2.2 "USDC" ⟨2026, 6, 25⟩ (by decide)⟩

/-- C8: `extract_maturity_from_symbol` parses the
day/3-letter-month/4-digit-year token — "PT-REUSD-25JUN2026" yields
2026-06-25 — returns `none` when no token is present ("USDC") or the
day/month combination is invalid ("PT-REUSD-31JUN2026"), and any date it
does return has in-range fields (the caught `ValueError` never escapes). -/
theorem C8_extract_maturity_parses :
    extract_maturity_from_symbol "PT-REUSD-25JUN2026" = some ⟨2026, 6, 25⟩
    ∧ extract_maturity_from_symbol "USDC" = none
    ∧ extract_maturity_from_symbol "PT-REUSD-31JUN2026" = none
    ∧ (∀ (s : String) (d : PyDate), extract_maturity_from_symbol s = some d →
        1 ≤ d.year ∧ d.year ≤ 9999 ∧ 1 ≤ d.month ∧ d.month ≤ 12
          ∧ 1 ≤ d.day ∧ d.day ≤ daysInMonth d.year d.month) := by
  refine ⟨by decide, by decide, by decide, ?_⟩
  intro s d h
  unfold extract_maturity_from_symbol at h
  split at h
  · exact absurd h (by simp)
  · split at h
    · exact absurd h (by simp)
    · unfold mkDatetime at h
      split_ifs at h with hv
      cases h
      exact ⟨hv.1, hv.2.1, hv.2.2.1, hv.2.2.2.1, hv.2.2.2.2.1,
        hv.2.2.2.2.2⟩

theorem C8_extract_maturity_parses_witness :
    1 ≤ (⟨2026, 6, 25⟩ : PyDate).year
    ∧ (⟨2026, 6, 25⟩ : PyDate).year ≤ 9999
    ∧ 1 ≤ (⟨2026, 6, 25⟩ : PyDate).month
    ∧ (⟨2026, 6, 25⟩ : PyDate).month ≤ 12
    ∧ 1 ≤ (⟨2026, 6, 25⟩ : PyDate).day
    ∧ (⟨2026, 6, 25⟩ : PyDate).day
        ≤ daysInMonth (⟨2026, 6, 25⟩ : PyDate).year (⟨2026, 6, 25⟩ : PyDate).month :=
  C8_extract_maturity_parses.2.2.2 "PT-REUSD-25JUN2026" ⟨2026, 6, 25⟩
    (by decide)

/-- C3 counterexample: the claim fails as stated for the pendle_loop
matcher. For the pair ("-SUSDE", "SUSDE") — the first component is what
`_extract_underlying_from_pt` produces from a symbol such as
"PT--SUSDE-27MAR2025" — exactly one side begins with the staked marker
`S`, yet `_underlyings_match` returns `True`, because its
separator-stripping equality runs before the staked-marker rule. -/
theorem C3_counterexample :
    startsWith "S" (strUpper "-SUSDE") = false
    ∧ startsWith "S" (strUpper "SUSDE") = true
    ∧ underlyings_match "-SUSDE" "SUSDE" = true := by decide

/-- C3 amended: when exactly one of the two identities begins with the
staked marker `S` (after uppercasing), the pendle_loop matcher returns
`False` unless the two become equal after removing the separators `-`/`_`
(that normalized-equality check precedes the staked-marker rule); the
Streamlit matcher returns `False` for every such pair unconditionally.
In particular ("sUSDe", "USDe") is `False` and ("sUSDe", "sUSDe") is
`True`. -/
theorem C3_staked_marker_rule :
    (∀ a b : String,
        startsWith "S" (strUpper a) ≠ startsWith "S" (strUpper b) →
        removeSeps (strUpper a) ≠ removeSeps (strUpper b) →
        underlyings_match a b = false)
    ∧ (∀ m p : String, startsWith "S" m ≠ startsWith "S" p →
        st_underlyings_match m p = false)
    ∧ underlyings_match "sUSDe" "USDe" = false
    ∧ underlyings_match "sUSDe" "sUSDe" = true := by
  refine ⟨?_, ?_, by decide, by decide⟩
  · intro a b hS hnorm
    have hne : strUpper a ≠ strUpper b := startsWith_neq_of_marker hS
    unfold underlyings_match
    rcases ha : startsWith "S" (strUpper a) <;>
      rcases hb : startsWith "S" (strUpper b) <;>
        simp [ha, hb, hne, hnorm]
  · intro m p hS
    have hne : m ≠ p := startsWith_neq_of_marker hS
    unfold st_underlyings_match
    rcases hm : startsWith "S" m <;> rcases hp : startsWith "S" p <;>
      simp [hm, hp, hne] <;> simp [hm, hp] at hS

theorem C3_staked_marker_rule_witness :
    startsWith "S" (strUpper "sUSDe") ≠ startsWith "S" (strUpper "USDe")
    ∧ underlyings_match "sUSDe" "USDe" = false
    ∧ st_underlyings_match "SUSDE" "USDE" = false :=
  ⟨by decide,
   C3_staked_marker_rule.1 "sUSDe" "USDe" (by decide) (by decide),
   C3_staked_marker_rule.2.1 "SUSDE" "USDE" (by decide)⟩

/-- C9 counterexample: the claim fails as stated: `leverage_warning`
does not return `none` for every leverage below 3 — at leverage 2 it
returns the mild caution string. -/
theorem C9_counterexample :
    get_leverage_risk_warning 2 = some "Some liquidation risk"
    ∧ get_leverage_risk_warning 2 ≠ none := by
  have h : get_leverage_risk_warning 2 = some "Some liquidation risk" := by
    norm_num [get_leverage_risk_warning]
  exact ⟨h, by rw [h]; simp⟩

/-- C9 amended: `get_leverage_risk_warning` returns the graduated caution
strings at the thresholds 3, 5, 7 and 10, a mild caution for leverage
strictly between 1 and 3, and `none` only for leverage at most 1. -/
theorem C9_leverage_warning_schedule (l : ℚ) :
    (l ≤ 1 → get_leverage_risk_warning l = none)
    ∧ (1 < l → l < 3 →
        get_leverage_risk_warning l = some "Some liquidation risk")
    ∧ (3 ≤ l → l < 5 →
        get_leverage_risk_warning l = some "Moderate liquidation risk")
    ∧ (5 ≤ l → l < 7 →
        get_leverage_risk_warning l
          = some "High liquidation risk - monitor closely")
    ∧ (7 ≤ l → l < 10 →
        get_leverage_risk_warning l
          = some "Very high liquidation risk - requires active monitoring")
    ∧ (10 ≤ l →
        get_leverage_risk_warning l
          = some "EXTREME liquidation risk - small price moves can wipe position") := by
  unfold get_leverage_risk_warning
  refine ⟨fun h => ?_, fun h h2 => ?_, fun h h2 => ?_, fun h h2 => ?_,
    fun h h2 => ?_, fun h => ?_⟩ <;>
    split_ifs <;> first | rfl | linarith

theorem C9_leverage_warning_schedule_witness :
    ((3 : ℚ) ≤ 4 ∧ (4 : ℚ) < 5
      ∧ get_leverage_risk_warning 4 = some "Moderate liquidation risk")
    ∧ ((1 : ℚ) < 2 ∧ (2 : ℚ) < 3
      ∧ get_leverage_risk_warning 2 = some "Some liquidation risk") :=
  ⟨⟨by decide, by decide,
    (C9_leverage_warning_schedule 4).2.2.1 (by decide) (by decide)⟩,
   ⟨by decide, by decide,
    (C9_leverage_warning_schedule 2).2.1 (by decide) (by decide)⟩⟩

lemma protocolLoop_le_of_bounded (table : List (String × ℚ)) (p : String)
    (hb : ∀ e ∈ table, e.2 ≤ 3) : protocolLoop table p ≤ 15 := by
  induction table with
  | nil => simp [protocolLoop]
  | cons e rest ih =>
      obtain ⟨k, v⟩ := e
      unfold protocolLoop
      split_ifs with hc
      · have hv : v ≤ 3 := hb (k, v) (by simp)
        linarith
      · exact ih (fun x hx => hb x (List.mem_cons_of_mem _ hx))

lemma protocolLoop_unmatched (table : List (String × ℚ)) (p : String)
    (hb : ∀ e ∈ table, strIn e.1 p = false) : protocolLoop table p = 15 := by
  induction table with
  | nil => rfl
  | cons e rest ih =>
      obtain ⟨k, v⟩ := e
      unfold protocolLoop
      rw [if_neg, ih (fun x hx => hb x (List.mem_cons_of_mem _ hx))]
      simp [hb (k, v) (by simp)]

/-- C5 counterexample: the claim fails as stated: with 40 days to
maturity (at least 30, so the claim predicts no points at all) the scorer
adds 5 points, turning a 45-point Medium opportunity into a 50-point
High one. -/
theorem C5_counterexample :
    riskScoreRaw "loop" 1 "aave" "ethereum" (some 40) 31
      = riskScoreRaw "loop" 1 "aave" "ethereum" none 31 + 5
    ∧ calculate_risk_score "loop" 1 "aave" "ethereum" (some 40) 31 = "High"
    ∧ calculate_risk_score "loop" 1 "aave" "ethereum" none 31 = "Medium" := by
  refine ⟨?_, ?_, ?_⟩ <;>
    · simp +decide [calculate_risk_score, riskScoreRaw, riskCategory,
        protocolPoints, protocolLoop, PROTOCOL_MATURITY, chainPoints,
        CHAIN_RISK, STRATEGY_RISK, dictGet, leveragePoints, maturityPoints,
        apyPoints]
      try norm_num

/-- C5 amended: when `maturity_date` is present the time-to-maturity
points follow the schedule of the source: fewer than 7 days adds 30
points, 7 to 29 days adds 15, 30 to 89 days adds 5, and only 90 or more
days to maturity adds no points at all, on top of the score of the same
inputs without a maturity. -/
theorem C5_maturity_schedule (strategy_type : String) (leverage : ℚ)
    (protocol chain : String) (apy : ℚ) (d : Int) :
    riskScoreRaw strategy_type leverage protocol chain (some d) apy
      = riskScoreRaw strategy_type leverage protocol chain none apy
        + (if d < 7 then 30 else if d < 30 then 15 else if d < 90 then 5
           else 0) := by
  unfold riskScoreRaw maturityPoints
  ring

/-- C6 counterexample: the claim fails as stated: the flat
unknown-protocol penalty (15 points) is not strictly higher than every
known entry — a maturity-3 protocol such as "silo" also receives
exactly 15 points. -/
theorem C6_counterexample :
    isKnownProtocol "silo" = true ∧ isKnownProtocol "curve" = false
    ∧ protocolPoints "silo" = 15 ∧ protocolPoints "curve" = 15 := by
  refine ⟨by decide, by decide, ?_, ?_⟩ <;>
    · simp +decide [protocolPoints, protocolLoop, PROTOCOL_MATURITY]
      try norm_num

/-- C6 amended: a protocol matching no entry of the known-protocol table
receives a flat 15-point penalty, which is greater than or equal to — but
not strictly higher than — the points of every known protocol: known
entries score `maturity * 5` with maturities 1 to 3, so at most 15. -/
theorem C6_unknown_protocol_penalty :
    (∀ p : String, isKnownProtocol p = false → protocolPoints p = 15)
    ∧ (∀ p : String, isKnownProtocol p = true → protocolPoints p ≤ 15)
    ∧ (∀ e ∈ PROTOCOL_MATURITY, e.2 * 5 ≤ 15) := by
  refine ⟨?_, ?_, ?_⟩
  · intro p hp
    apply protocolLoop_unmatched
    intro e he
    have := List.any_eq_false.mp hp e he
    simpa using this
  · intro p _
    apply protocolLoop_le_of_bounded
    intro e _
    revert e
    decide
  · intro e he
    have h3 : e.2 ≤ 3 := by revert e he; decide
    linarith

theorem C6_unknown_protocol_penalty_witness :
    protocolPoints "curve" = 15 ∧ protocolPoints "silo" ≤ 15
    ∧ ("silo", (3 : ℚ)) ∈ PROTOCOL_MATURITY
    ∧ ((3 : ℚ) * 5 ≤ 15) :=
  ⟨C6_unknown_protocol_penalty.1 "curve" (by decide),
   C6_unknown_protocol_penalty.2.1 "silo" (by decide),
   by decide,
   C6_unknown_protocol_penalty.2.2 ("silo", 3) (by decide)⟩

lemma leveragePoints_mono {a b : ℚ} (h : a ≤ b) :
    leveragePoints a ≤ leveragePoints b := by
  unfold leveragePoints
  split_ifs <;> linarith

lemma riskRank_riskCategory_mono {a b : ℚ} (h : a ≤ b) :
    riskRank (riskCategory a) ≤ riskRank (riskCategory b) := by
  unfold riskCategory
  split_ifs <;> first | decide | linarith

/-- C7: for fixed strategy type, protocol, chain, maturity and APY,
`calculate_risk_score` is monotonic non-decreasing in leverage: a lower
leverage never yields a higher category in the order
Low < Medium < High < Very High. -/
theorem C7_risk_monotone_in_leverage (strategy_type protocol chain : String)
    (days_to_maturity : Option Int) (apy : ℚ) (l1 l2 : ℚ) (h : l1 ≤ l2) :
    riskRank (calculate_risk_score strategy_type l1 protocol chain
        days_to_maturity apy)
      ≤ riskRank (calculate_risk_score strategy_type l2 protocol chain
        days_to_maturity apy) := by
  unfold calculate_risk_score
  apply riskRank_riskCategory_mono
  unfold riskScoreRaw
  have := leveragePoints_mono h
  linarith

theorem C7_risk_monotone_in_leverage_witness :
    (2 : ℚ) ≤ 3
    ∧ riskRank (calculate_risk_score "loop" 2 "aave" "ethereum" none 0)
        ≤ riskRank (calculate_risk_score "loop" 3 "aave" "ethereum" none 0) :=
  ⟨by decide,
   C7_risk_monotone_in_leverage "loop" "aave" "ethereum" none 0 2 3
     (by decide)⟩

/-- C2 counterexample: the claim fails as stated. With collateral yield
5.0 and borrow rate 6.0, `net_apy = 5L - 6(L-1) = 6 - L`, which is 4 > 0
at tier 2, so the tiers 2, 3 and 5 all survive the `net_apy <= 0` filter
and are emitted by the Morpho loop synthesizer (here with LLTV 0.9, where
the safe leverage cap is 5). -/
theorem C2_counterexample :
    net_apy 5 6 2 = 4 ∧ ¬ net_apy 5 6 2 ≤ 0
    ∧ morphoLoopTiers 5 6 0.9 = [2, 3, 5]
    ∧ morphoMarketTiers 20000 6 0.9 5 = [2, 3, 5] := by
  refine ⟨?_, ?_, ?_, ?_⟩ <;>
    norm_num [net_apy, morphoLoopTiers, morphoMarketTiers, LEVERAGE_LEVELS,
      List.filter, morphoTierEmit, safe_max_leverage,
      theoretical_max_leverage]

/-- C2 amended: with collateral yield 5.0 and borrow rate 6.0,
`net_apy(L) = 5L - 6(L-1) = 6 - L`, so `net_apy <= 0` holds only for
tiers of at least 6; every tier in the set {2, 3, 5} has positive net APY
and is emitted (when within the leverage cap, e.g. at LLTV 0.9). -/
theorem C2_negative_carry_tiers :
    (∀ L : ℚ, 1 < L → (net_apy 5 6 L ≤ 0 ↔ 6 ≤ L))
    ∧ morphoLoopTiers 5 6 0.9 = [2, 3, 5] := by
  constructor
  · intro L _
    unfold net_apy
    constructor <;> intro <;> linarith
  · norm_num [morphoLoopTiers, LEVERAGE_LEVELS, List.filter, morphoTierEmit,
      net_apy, safe_max_leverage, theoretical_max_leverage]

theorem C2_negative_carry_tiers_witness :
    (1 : ℚ) < 2 ∧ (net_apy 5 6 2 ≤ 0 ↔ (6 : ℚ) ≤ 2) :=
  ⟨by decide, C2_negative_carry_tiers.1 2 (by decide)⟩

lemma mem_morphoLoopTiers_example : (2 : ℚ) ∈ morphoLoopTiers 8 4 0.9 := by
  norm_num [morphoLoopTiers, LEVERAGE_LEVELS, List.filter, morphoTierEmit,
    net_apy, safe_max_leverage, theoretical_max_leverage]

lemma mem_pendleLoopTiers_example : (5 : ℚ) ∈ pendleLoopTiers 8 4 0.85 := by
  norm_num [pendleLoopTiers, LEVERAGE_LEVELS, List.filter, pendleTierEmit,
    net_apy]

/-- C1 counterexample: the claim fails as stated for the Pendle loop
synthesizer. At LLTV 0.85 (with PT yield 8 and borrow rate 4) it emits
the tier 5, although `min(theoretical_max * 0.6, 5.0) = min(4.0, 5.0) = 4`,
because its gate is `leverage > theoretical_max * 0.9` with no 0.6 margin
and no 5.0 cap. -/
theorem C1_counterexample :
    (5 : ℚ) ∈ pendleLoopTiers 8 4 0.85
    ∧ safe_max_leverage 0.85 = 4
    ∧ ¬ (5 : ℚ) ≤ safe_max_leverage 0.85 := by
  refine ⟨?_, ?_, ?_⟩ <;>
    norm_num [pendleLoopTiers, LEVERAGE_LEVELS, List.filter, pendleTierEmit,
      net_apy, safe_max_leverage, theoretical_max_leverage]

/-- C1 amended: the Morpho loop synthesizer computes
`safe_max_leverage = min(theoretical_max_leverage * 0.6, 5.0)`, which is
at most 5 for every collateral factor (0.95 gives theoretical max 20,
clamped to 5), and it never emits a tier above `safe_max_leverage`; the
Pendle loop synthesizer instead only skips tiers above 90% of the
theoretical maximum leverage, so its emitted tiers are bounded by
`theoretical_max_leverage * 0.9`, not by the 0.6-margin cap. -/
theorem C1_safe_max_leverage_cap :
    (∀ lltv : ℚ, safe_max_leverage lltv ≤ 5)
    ∧ theoretical_max_leverage 0.95 = 20
    ∧ safe_max_leverage 0.95 = 5
    ∧ (∀ y b lltv L : ℚ, L ∈ morphoLoopTiers y b lltv →
        L ≤ safe_max_leverage lltv)
    ∧ (∀ y b lltv L : ℚ, 0 < lltv →
        L ∈ pendleLoopTiers y b lltv →
        L ≤ theoretical_max_leverage lltv * 0.9) := by
  refine ⟨?_, ?_, ?_, ?_, ?_⟩
  · intro lltv
    unfold safe_max_leverage
    exact le_trans (min_le_right _ _) (by norm_num)
  · norm_num [theoretical_max_leverage]
  · norm_num [safe_max_leverage, theoretical_max_leverage]
  · intro y b lltv L hL
    have hemit : morphoTierEmit y b lltv L = true := List.of_mem_filter hL
    by_contra hgt
    push_neg at hgt
    simp [morphoTierEmit, if_pos hgt] at hemit
  · intro y b lltv L hpos hL
    have hemit : pendleTierEmit y b lltv L = true := List.of_mem_filter hL
    unfold pendleTierEmit at hemit
    have hlltv : ¬ lltv ≤ 0 := not_le.mpr hpos
    rw [if_neg hlltv] at hemit
    by_contra hgt
    push_neg at hgt
    unfold theoretical_max_leverage at hgt
    split_ifs at hemit <;> simp_all

theorem C1_safe_max_leverage_cap_witness :
    ((2 : ℚ) ∈ morphoLoopTiers 8 4 0.9 ∧ (2 : ℚ) ≤ safe_max_leverage 0.9)
    ∧ ((0 : ℚ) < 0.85 ∧ (5 : ℚ) ∈ pendleLoopTiers 8 4 0.85
        ∧ (5 : ℚ) ≤ theoretical_max_leverage 0.85 * 0.9) :=
  ⟨⟨mem_morphoLoopTiers_example,
    C1_safe_max_leverage_cap.2.2.2.1 8 4 0.9 2 mem_morphoLoopTiers_example⟩,
   ⟨by norm_num, mem_pendleLoopTiers_example,
    C1_safe_max_leverage_cap.2.2.2.2 8 4 0.85 5 (by norm_num)
      mem_pendleLoopTiers_example⟩⟩

lemma isDigitC_digitChar (k : Nat) : isDigitC (digitChar k) = true := by
  obtain ⟨r, hrlt, hre⟩ : ∃ r, r < 10 ∧ k % 10 = r :=
    ⟨k % 10, Nat.mod_lt _ (by norm_num), rfl⟩
  unfold digitChar
  rw [hre]
  interval_cases r <;> decide

lemma digitVal_digitChar (k : Nat) : digitVal (digitChar k) = k % 10 := by
  obtain ⟨r, hrlt, hre⟩ : ∃ r, r < 10 ∧ k % 10 = r :=
    ⟨k % 10, Nat.mod_lt _ (by norm_num), rfl⟩
  unfold digitChar
  rw [hre]
  interval_cases r <;> decide

lemma fromisoformat_isoformat (t : PyDateTime) (h : ValidDT t) :
    fromisoformat (isoformat t) = some t := by
  obtain ⟨y, mo, d, hh, mi, ss⟩ := t
  obtain ⟨h1, h2, h3, h4, h5, h6, h7, h8, h9⟩ := h
  dsimp only at h1 h2 h3 h4 h5 h6 h7 h8 h9
  unfold isoformat pad4 pad2 fromisoformat
  simp only [String.toList, List.cons_append, List.nil_append]
  split_ifs with hc
  · simp only [digitVal_digitChar]
    have hy : y / 1000 % 10 * 1000 + y / 100 % 10 * 100 + y / 10 % 10 * 10
        + y % 10 = y := by omega
    have hmo : mo / 10 % 10 * 10 + mo % 10 = mo := by
      have : mo ≤ 12 := h4; omega
    have hd : d / 10 % 10 * 10 + d % 10 = d := by
      have hle : d ≤ daysInMonth y mo := h6
      have : daysInMonth y mo ≤ 31 := by
        unfold daysInMonth; split_ifs <;> omega
      omega
    have hhh : hh / 10 % 10 * 10 + hh % 10 = hh := by omega
    have hmi : mi / 10 % 10 * 10 + mi % 10 = mi := by omega
    have hss : ss / 10 % 10 * 10 + ss % 10 = ss := by omega
    rw [hy, hmo, hd, hhh, hmi, hss]
    unfold mkFullDatetime
    rw [if_pos ⟨h1, h2, h3, h4, h5, h6, h7, h8, h9⟩]
  · exact absurd (by simp [isDigitC_digitChar]) hc

lemma isoformat_ne_empty (t : PyDateTime) : isoformat t ≠ "" := by
  unfold isoformat pad4 pad2
  intro hh
  have hdata := congrArg String.data hh
  simp at hdata

/-- Validity of an optional maturity date: the wrapped datetime, when
present, satisfies the Python `datetime` field ranges. -/
def ValidMaturity : Option PyDateTime → Prop
  | none => True
  | some t => ValidDT t

instance (m : Option PyDateTime) : Decidable (ValidMaturity m) :=
  match m with
  | none => .isTrue trivial
  | some t => inferInstanceAs (Decidable (ValidDT t))

/-- C10: `from_dict` inverts `to_dict` field by field for every
opportunity record (whose maturity date, when present, is a valid
datetime), including the optional maturity date serialized through
`isoformat` and parsed back, the optional borrow/supply legs, and the
`additional_info` payload. -/
theorem C10_to_dict_from_dict_roundtrip (o : YieldOpportunity)
    (h : ValidMaturity o.maturity_date) :
    from_dict (to_dict o) = some o := by
  obtain ⟨cat, prot, ch, stb, apy, tvl, rs, lev, su, mat, ba, sa, rt, ot,
    ai⟩ := o
  cases mat with
  | none => simp [to_dict, from_dict]
  | some t =>
      have hv : ValidDT t := h
      have hne : isoformat t ≠ "" := isoformat_ne_empty t
      simp [to_dict, from_dict, hne, fromisoformat_isoformat t hv]

/-- Concrete record exercising the round trip. -/
def sampleOpportunity : YieldOpportunity where
  category := "Pendle Looping"
  protocol := "Pendle + Morpho"
  chain := "Ethereum"
  stablecoin := "USDE"
  apy := 24
  tvl := some 1000000
  risk_score := "High"
  leverage := 5
  source_url := "https://app.morpho.org/market?id=x"
  maturity_date := some ⟨2026, 6, 25, 0, 0, 0⟩
  borrow_apy := some 4
  supply_apy := some 8
  reward_token := none
  opportunity_type := ""
  additional_info := [("collateral", "PT-USDE")]

theorem C10_to_dict_from_dict_roundtrip_witness :
    ValidMaturity sampleOpportunity.maturity_date
    ∧ from_dict (to_dict sampleOpportunity) = some sampleOpportunity :=
  ⟨by decide, C10_to_dict_from_dict_roundtrip sampleOpportunity (by decide)⟩
